import Mathlib

/-!
Shallow embedding of the portfolio-backend service (src/main.py): the three
submission models, their validators, the tenacity retry wrappers around the
MongoDB connection and the Resend email send, and the three endpoint
handlers.  External effects (the store insert, the email provider, the
clock, the UUID generator, the environment variables) are modelled as
explicit inputs; machine behaviour such as Python truthiness and
`str.strip()` is translated faithfully.
-/

namespace PortfolioBackend

/-- `class ProjectDetails(BaseModel)`: every field except `contactEmail` is
`str | None = None`; `contactEmail : EmailStr` is required. -/
structure ProjectDetails where
  clientType : Option String
  clientName : Option String
  companyName : Option String
  projectType : Option String
  budget : Option String
  timeline : Option String
  requirements : Option String
  contactEmail : String
deriving DecidableEq, Repr

/-- `class HiringDetails(BaseModel)`: all fields required strings
(`clientType` defaults to "company" but may carry any value). -/
structure HiringDetails where
  clientType : String
  companyName : String
  positionTitle : String
  budget : String
  timeline : String
  requirements : String
  contactEmail : String
deriving DecidableEq, Repr

/-- `class ContactDetails(BaseModel)`: required name, email, message. -/
structure ContactDetails where
  name : String
  email : String
  message : String
deriving DecidableEq, Repr

/-- The three request-body variants accepted by the three endpoints. -/
inductive Submission where
  | project (d : ProjectDetails)
  | hiring (d : HiringDetails)
  | contact (d : ContactDetails)
deriving DecidableEq, Repr

/-- `fastapi.HTTPException(status_code=..., detail=...)`. -/
structure HTTPException where
  status_code : Nat
  detail : String
deriving DecidableEq, Repr

/-- Python truthiness of an `Optional[str]`: `None` and `""` are falsy,
every other string is truthy. -/
def optTruthy : Option String → Bool
  | none => false
  | some s => s != ""

/-- Python `str.strip()`: drop leading and trailing whitespace characters.
(Defined over the character list so the kernel can evaluate it; Lean's
built-in `String.trim` uses well-founded recursion and cannot be reduced.) -/
def pyStrip (s : String) : String :=
  String.mk ((s.data.dropWhile Char.isWhitespace).reverse.dropWhile Char.isWhitespace).reverse

/-- `validate_project_details` (src/main.py:85-93).  Returns `some e` when the
Python function raises `HTTPException e`, `none` when it returns normally.
Note the Python code tests plain truthiness (`not details.companyName`),
i.e. it does NOT strip whitespace. -/
def validate_project_details (d : ProjectDetails) : Option HTTPException :=
  if d.contactEmail == "" then
    some ⟨400, "Contact email is required"⟩
  else if optTruthy d.clientType &&
      !(d.clientType == some "company" || d.clientType == some "individual") then
    some ⟨400, "Invalid client type"⟩
  else if d.clientType == some "company" && !optTruthy d.companyName then
    some ⟨400, "Company name is required for company client type"⟩
  else if d.clientType == some "individual" && !optTruthy d.clientName then
    some ⟨400, "Client name is required for individual client type"⟩
  else
    none

/-- `validate_hiring_details` (src/main.py:96-110).  The textual fields use
`str.strip()` before the emptiness test, modelled by `pyStrip`. -/
def validate_hiring_details (d : HiringDetails) : Option HTTPException :=
  if d.clientType != "company" then
    some ⟨400, "Client type must be 'company' for hiring requests"⟩
  else if (pyStrip d.companyName) == "" then
    some ⟨400, "Company name is required"⟩
  else if (pyStrip d.positionTitle) == "" then
    some ⟨400, "Position title is required"⟩
  else if (pyStrip d.budget) == "" then
    some ⟨400, "Budget is required"⟩
  else if (pyStrip d.timeline) == "" then
    some ⟨400, "Timeline is required"⟩
  else if (pyStrip d.requirements) == "" then
    some ⟨400, "Requirements are required"⟩
  else if d.contactEmail == "" then
    some ⟨400, "Contact email is required"⟩
  else
    none

/-- `validate_contact_details` (src/main.py:113-119).  `len(details.message)`
counts characters (code points), modelled by `String.length`. -/
def validate_contact_details (d : ContactDetails) : Option HTTPException :=
  if (pyStrip d.name) == "" then
    some ⟨400, "Name is required"⟩
  else if (pyStrip d.message) == "" then
    some ⟨400, "Message is required"⟩
  else if decide (d.message.length > 1000) then
    some ⟨400, "Message cannot exceed 1000 characters"⟩
  else
    none

/-- Dispatch to the validator used by each endpoint. -/
def validateSubmission : Submission → Option HTTPException
  | .project d => validate_project_details d
  | .hiring d => validate_hiring_details d
  | .contact d => validate_contact_details d

/-! ## Tenacity retry wrappers -/

/-- `tenacity.wait_exponential(multiplier, min, max)`: the wait before the
retry following attempt `attemptNumber` is `multiplier * 2 ^ (attemptNumber - 1)`
clamped into `[mn, mx]` (tenacity computes `max(mn, min(result, mx))`). -/
def wait_exponential (multiplier mn mx attemptNumber : Nat) : Nat :=
  Nat.max mn (Nat.min (multiplier * 2 ^ (attemptNumber - 1)) mx)

deriving instance DecidableEq for Except

/-- Outcome of a `@retry`-wrapped call: the final result (`Except.error` when
the call raises out of the wrapper), how many attempts were made, and the
backoff waits slept between consecutive attempts. -/
structure RetryOutcome (ε α : Type) where
  result : Except ε α
  attemptsMade : Nat
  waits : List Nat
deriving DecidableEq, Repr

/-- `tenacity.retry(stop=stop_after_attempt(n), wait=..., retry=retry_if_exception_type(...))`:
attempt `i` runs; on success the value is returned; on a retryable fault with
attempts remaining, the wrapper sleeps `wait i` and retries; otherwise the
fault propagates.  Called with `i = 1` and `remaining = n - 1` for
`stop_after_attempt(n)`. -/
def tenacityRun {ε α : Type} (retryable : ε → Bool) (wait : Nat → Nat)
    (attempt : Nat → Except ε α) : Nat → Nat → RetryOutcome ε α
  | i, 0 =>
    match attempt i with
    | .ok a => ⟨.ok a, 1, []⟩
    | .error e => ⟨.error e, 1, []⟩
  | i, r + 1 =>
    match attempt i with
    | .ok a => ⟨.ok a, 1, []⟩
    | .error e =>
      if retryable e then
        let rest := tenacityRun retryable wait attempt (i + 1) r
        ⟨rest.result, rest.attemptsMade + 1, wait i :: rest.waits⟩
      else
        ⟨.error e, 1, []⟩

/-! ## Notifier (`send_email`, src/main.py:137-198) -/

/-- The email-provider environment: `RESEND_API_KEY` (`none` models the
falsy cases: unset or empty), and the behaviour of `resend.Emails.send` on
the `i`-th attempt (`some messageId` on success, `none` when the provider
raises). -/
structure EmailEnv where
  resendApiKey : Option String
  providerSend : Nat → Option String

/-- Subject line chosen by `send_email`'s `isinstance` dispatch. -/
def email_subject : Submission → String
  | .project _ => "New Project Request from AI Assistant"
  | .hiring _ => "New Hiring Request from AI Assistant"
  | .contact _ => "New Contact Form Submission"

/-- One attempt of the body of `send_email`: with no API key it returns
`False` at once (no exception, so tenacity does not retry); otherwise the
HTML body is rendered (pure string formatting, which cannot raise) and the
provider is called, returning `True` on success and raising on fault. -/
def send_email_attempt (env : EmailEnv) (i : Nat) : Except Unit Bool :=
  if env.resendApiKey.isNone then
    .ok false
  else
    match env.providerSend i with
    | some _ => .ok true
    | none => .error ()

/-- `send_email` under its decorator
`@retry(stop=stop_after_attempt(3), wait=wait_exponential(multiplier=1, min=2, max=5), retry=retry_if_exception_type(Exception))`:
every fault is retryable, at most 3 attempts. -/
def send_email_run (env : EmailEnv) : RetryOutcome Unit Bool :=
  tenacityRun (fun _ => true) (wait_exponential 1 2 5) (send_email_attempt env) 1 2

/-- The value `await send_email(details)` produces: `Except.error` models the
`RetryError` raised when the three attempts are exhausted. -/
def send_email (env : EmailEnv) : Except Unit Bool :=
  (send_email_run env).result

/-! ## Connection manager (`connect_to_mongodb` / `startup_event`) -/

/-- Faults a connection attempt can raise: `pymongo.errors.ConnectionFailure`
(the only retryable type under `retry_if_exception_type(ConnectionFailure)`)
or any other exception. -/
inductive ConnectFault where
  | connectionFailure
  | otherFault
deriving DecidableEq, Repr

/-- `connect_to_mongodb` (src/main.py:122-134) under its decorator
`@retry(stop=stop_after_attempt(5), wait=wait_exponential(multiplier=1, min=4, max=10), retry=retry_if_exception_type(ConnectionFailure))`.
The oracle `attempt i` models the `i`-th client construction + ping. -/
def connect_to_mongodb (attempt : Nat → Except ConnectFault Unit) :
    RetryOutcome ConnectFault Unit :=
  tenacityRun (fun f => f == ConnectFault.connectionFailure)
    (wait_exponential 1 4 10) attempt 1 4

/-- `startup_event` (src/main.py:214-220): any exception escaping
`connect_to_mongodb` is re-raised as `HTTPException(500, "Database connection failed")`,
so startup fails and the app never begins serving. -/
def startup_event (attempt : Nat → Except ConnectFault Unit) :
    Except HTTPException Unit :=
  match (connect_to_mongodb attempt).result with
  | .ok _ => .ok ()
  | .error _ => .error ⟨500, "Database connection failed"⟩

/-! ## Request store and endpoint handlers -/

/-- Faults `collection.insert_one` can raise: `pymongo.errors.PyMongoError`
(caught by the endpoint's dedicated handler) or any other exception (caught
by the generic `except Exception`). -/
inductive StoreFault where
  | pyMongoError
  | otherFault
deriving DecidableEq, Repr

/-- The document built by each endpoint before `insert_one`: the submission's
fields (`model_dump`) plus the three system-assigned attributes
`created_at`, `type` and `request_id` (src/main.py:238-241, 273-276, 308-311). -/
structure StoredRecord where
  data : Submission
  created_at : Nat
  type : String
  request_id : String
deriving DecidableEq, Repr

/-- The JSON body returned on success: `{message, request_id, email_sent}`. -/
structure SuccessResponse where
  message : String
  request_id : String
  email_sent : Bool
deriving DecidableEq, Repr

/-- Per-request external state: the UTC clock reading
(`datetime.now(timezone.utc)`), the freshly generated `str(uuid.uuid4())`,
the behaviour of `collection.insert_one` (raises a fault, or returns an
`InsertOneResult` whose `inserted_id` may be absent/falsy), and the email
provider environment. -/
structure HandlerEnv where
  now : Nat
  freshUuid : String
  insertResult : Except StoreFault (Option String)
  email : EmailEnv

/-- `type` discriminator written by each endpoint. -/
def submissionType : Submission → String
  | .project _ => "project_request"
  | .hiring _ => "hiring_request"
  | .contact _ => "contact_request"

/-- Success `message` returned by each endpoint. -/
def successMessage : Submission → String
  | .project _ => "Project request submitted successfully. Muhammad Ahmad will contact you soon!"
  | .hiring _ => "Hiring request submitted successfully. Muhammad Ahmad will contact you soon!"
  | .contact _ => "Your message has been sent to Muhammad Ahmad. He will contact you soon!"

/-- `detail` of the 500 raised via the `except PyMongoError` handler. -/
def storeFailDetail : Submission → String
  | .project _ => "Failed to store project details"
  | .hiring _ => "Failed to store hiring details"
  | .contact _ => "Failed to store contact details"

/-- `detail` of the generic `except Exception` 500 handler. -/
def genericErrorDetail : String :=
  "An error occurred. Please try again or contact Muhammad directly at ahmadrajpootr1@gmail.com."

/-- What a run of one endpoint did: the HTTP outcome, the records
successfully written by the store, whether `insert_one` was called at all,
and whether `send_email` was called at all. -/
structure HandlerOutcome where
  response : Except HTTPException SuccessResponse
  inserted : List StoredRecord
  insertCalled : Bool
  emailAttempted : Bool
deriving Repr

/-- Common body of `submit_project_request`, `submit_hiring_request` and
`submit_contact_request` (src/main.py:235-263, 270-298, 305-333), which differ
only in the validator and the literal strings captured above:
1. validate — an `HTTPException` from the validator is re-raised unchanged;
2. build the record with `created_at`/`type`/`request_id` and `insert_one` it:
   a raised `PyMongoError` becomes a 500 with the "Failed to store ..."
   detail, any other exception the generic 500; a result without
   `inserted_id` raises `PyMongoError` itself, caught by the same handler;
3. `await send_email(details)` — a normal return becomes the `email_sent`
   flag of the 200 response; the `RetryError` raised on exhaustion reaches
   the generic `except Exception` handler and becomes the generic 500. -/
def handleSubmission (env : HandlerEnv) (sub : Submission) : HandlerOutcome :=
  match validateSubmission sub with
  | some e => ⟨.error e, [], false, false⟩
  | none =>
    let record : StoredRecord := ⟨sub, env.now, submissionType sub, env.freshUuid⟩
    match env.insertResult with
    | .error .pyMongoError => ⟨.error ⟨500, storeFailDetail sub⟩, [], true, false⟩
    | .error .otherFault => ⟨.error ⟨500, genericErrorDetail⟩, [], true, false⟩
    | .ok none => ⟨.error ⟨500, storeFailDetail sub⟩, [record], true, false⟩
    | .ok (some _) =>
      match send_email env.email with
      | .ok b => ⟨.ok ⟨successMessage sub, record.request_id, b⟩, [record], true, true⟩
      | .error _ => ⟨.error ⟨500, genericErrorDetail⟩, [record], true, true⟩

/-- `POST /api/project-request`. -/
def submit_project_request (env : HandlerEnv) (d : ProjectDetails) : HandlerOutcome :=
  handleSubmission env (.project d)

/-- `POST /api/hiring-request`. -/
def submit_hiring_request (env : HandlerEnv) (d : HiringDetails) : HandlerOutcome :=
  handleSubmission env (.hiring d)

/-- `POST /api/contact`. -/
def submit_contact_request (env : HandlerEnv) (d : ContactDetails) : HandlerOutcome :=
  handleSubmission env (.contact d)

/-! ## Spec-side descriptions (for refinement claims)

`firstViolation` and the three rule lists below transcribe the SPEC's words:
"first violation found wins; order of checks as listed above is the tie-break".
They are compared against the validators transcribed from the code. -/

/-- Modelled from the spec: return the exception of the first rule (in list
order) that the submission violates, or `none` when no rule is violated. -/
def firstViolation {δ : Type} : List ((δ → Bool) × HTTPException) → δ → Option HTTPException
  | [], _ => none
  | (p, e) :: rest, d => if p d then some e else firstViolation rest d

/-- The spec's ordered rule list for a Project Request (spec §4.1). -/
def projectRules : List ((ProjectDetails → Bool) × HTTPException) :=
  [(fun d => d.contactEmail == "",
    ⟨400, "Contact email is required"⟩),
   (fun d => optTruthy d.clientType &&
      !(d.clientType == some "company" || d.clientType == some "individual"),
    ⟨400, "Invalid client type"⟩),
   (fun d => d.clientType == some "company" && !optTruthy d.companyName,
    ⟨400, "Company name is required for company client type"⟩),
   (fun d => d.clientType == some "individual" && !optTruthy d.clientName,
    ⟨400, "Client name is required for individual client type"⟩)]

/-- The spec's ordered rule list for a Hiring Request (spec §4.1): clientType,
then companyName, positionTitle, budget, timeline, requirements, contactEmail. -/
def hiringRules : List ((HiringDetails → Bool) × HTTPException) :=
  [(fun d => d.clientType != "company",
    ⟨400, "Client type must be 'company' for hiring requests"⟩),
   (fun d => (pyStrip d.companyName) == "", ⟨400, "Company name is required"⟩),
   (fun d => (pyStrip d.positionTitle) == "", ⟨400, "Position title is required"⟩),
   (fun d => (pyStrip d.budget) == "", ⟨400, "Budget is required"⟩),
   (fun d => (pyStrip d.timeline) == "", ⟨400, "Timeline is required"⟩),
   (fun d => (pyStrip d.requirements) == "", ⟨400, "Requirements are required"⟩),
   (fun d => d.contactEmail == "", ⟨400, "Contact email is required"⟩)]

/-- The spec's ordered rule list for a Contact Message (spec §4.1): name,
then message blankness, then message length. -/
def contactRules : List ((ContactDetails → Bool) × HTTPException) :=
  [(fun d => (pyStrip d.name) == "", ⟨400, "Name is required"⟩),
   (fun d => (pyStrip d.message) == "", ⟨400, "Message is required"⟩),
   (fun d => decide (d.message.length > 1000),
    ⟨400, "Message cannot exceed 1000 characters"⟩)]

/-! ## Concrete fixtures (used to instantiate theorems on closed inputs) -/

/-- A message of exactly 1000 characters. -/
def fixedMsg1000 : String := String.mk (List.replicate 1000 'a')

/-- A message of exactly 1001 characters. -/
def fixedMsg1001 : String := String.mk (List.replicate 1001 'a')

/-- A well-formed contact submission. -/
def contactHello : ContactDetails := ⟨"Ada", "ada@example.com", "Hello"⟩

/-- Environment whose email provider faults on every attempt. -/
def envProviderDown : HandlerEnv :=
  ⟨0, "3f2c", Except.ok (some "oid-1"), ⟨some "re_key", fun _ => none⟩⟩

/-- Environment with no email credential configured. -/
def envNoCredential : HandlerEnv :=
  ⟨0, "77aa", Except.ok (some "oid-2"), ⟨none, fun _ => none⟩⟩

/-- Environment whose store insert raises `PyMongoError`. -/
def envStoreDown : HandlerEnv :=
  ⟨0, "9b4d", Except.error StoreFault.pyMongoError, ⟨some "re_key", fun _ => some "mid-1"⟩⟩

/-- Environment in which every dependency behaves. -/
def envHealthy : HandlerEnv :=
  ⟨0, "c01a", Except.ok (some "oid-3"), ⟨some "re_key", fun _ => some "mid-2"⟩⟩

/-- A hiring submission whose client type is not "company". -/
def hiringPerson : HiringDetails :=
  ⟨"individual", "Acme", "Engineer", "5k", "2 weeks", "Build an API", "hr@acme.com"⟩

/-! ## Shared lemmas -/

/-- Each validator computes exactly the first violated rule of its spec-order
rule list (definitional: the code checks the rules in the spec's order). -/
theorem validate_project_eq_rules (d : ProjectDetails) :
    validate_project_details d = firstViolation projectRules d := rfl

theorem validate_hiring_eq_rules (d : HiringDetails) :
    validate_hiring_details d = firstViolation hiringRules d := rfl

theorem validate_contact_eq_rules (d : ContactDetails) :
    validate_contact_details d = firstViolation contactRules d := rfl

/-- Any violation reported by `firstViolation` is one of the listed rules'
exceptions; in particular it inherits their status codes. -/
theorem firstViolation_status {δ : Type}
    (rules : List ((δ → Bool) × HTTPException))
    (hall : ∀ pe ∈ rules, pe.2.status_code = 400) (d : δ) (e : HTTPException)
    (h : firstViolation rules d = some e) : e.status_code = 400 := by
  induction rules with
  | nil => simp [firstViolation] at h
  | cons pe rest ih =>
    obtain ⟨p, ex⟩ := pe
    unfold firstViolation at h
    by_cases hp : p d
    · simp [hp] at h
      subst h
      exact hall ⟨p, ex⟩ (List.mem_cons_self _ _)
    · simp [hp] at h
      exact ih (fun q hq => hall q (List.mem_cons_of_mem _ hq)) h

/-- Every validation error carries status 400. -/
theorem validateSubmission_status (sub : Submission) (e : HTTPException)
    (h : validateSubmission sub = some e) : e.status_code = 400 := by
  cases sub with
  | project d =>
    rw [validateSubmission, validate_project_eq_rules] at h
    exact firstViolation_status projectRules (by decide) d e h
  | hiring d =>
    rw [validateSubmission, validate_hiring_eq_rules] at h
    exact firstViolation_status hiringRules (by decide) d e h
  | contact d =>
    rw [validateSubmission, validate_contact_eq_rules] at h
    exact firstViolation_status contactRules (by decide) d e h

/-- A retry loop with `remaining` retries left makes at most `remaining + 1`
attempts. -/
theorem tenacityRun_attempts_le {ε α : Type} (retryable : ε → Bool)
    (wait : Nat → Nat) (attempt : Nat → Except ε α) (i r : Nat) :
    (tenacityRun retryable wait attempt i r).attemptsMade ≤ r + 1 := by
  induction r generalizing i with
  | zero =>
    unfold tenacityRun
    cases attempt i <;> simp
  | succ r ih =>
    unfold tenacityRun
    cases attempt i with
    | ok a => simp
    | error e =>
      by_cases hr : retryable e
      · simpa [hr] using Nat.succ_le_succ (ih (i + 1))
      · simp [hr]

/-- Every wait slept by the retry loop satisfies any property satisfied by
the wait function everywhere. -/
theorem tenacityRun_waits_bound {ε α : Type} (retryable : ε → Bool)
    (wait : Nat → Nat) (attempt : Nat → Except ε α) (P : Nat → Prop)
    (hw : ∀ j, P (wait j)) (i r : Nat) :
    ∀ w ∈ (tenacityRun retryable wait attempt i r).waits, P w := by
  induction r generalizing i with
  | zero =>
    unfold tenacityRun
    cases attempt i <;> simp
  | succ r ih =>
    unfold tenacityRun
    cases attempt i with
    | ok a => simp
    | error e =>
      by_cases hr : retryable e
      · simp [hr]
        exact ⟨hw i, fun w h => ih (i + 1) w h⟩
      · simp [hr]

/-- When every attempt raises the same retryable fault, the loop exhausts
all its attempts and propagates that fault. -/
theorem tenacityRun_all_fail {ε α : Type} (retryable : ε → Bool)
    (wait : Nat → Nat) (attempt : Nat → Except ε α) (e : ε)
    (hfail : ∀ j, attempt j = .error e) (hr : retryable e = true) (i r : Nat) :
    (tenacityRun retryable wait attempt i r).result = .error e ∧
    (tenacityRun retryable wait attempt i r).attemptsMade = r + 1 := by
  induction r generalizing i with
  | zero =>
    unfold tenacityRun
    simp [hfail i]
  | succ r ih =>
    unfold tenacityRun
    simp [hfail i, hr]
    exact ih (i + 1)

/-- A non-retryable fault on the first attempt ends the loop at once. -/
theorem tenacityRun_not_retryable {ε α : Type} (retryable : ε → Bool)
    (wait : Nat → Nat) (attempt : Nat → Except ε α) (e : ε)
    (h : attempt i = .error e) (hnr : retryable e = false) (r : Nat) :
    tenacityRun retryable wait attempt i r = ⟨.error e, 1, []⟩ := by
  cases r <;> unfold tenacityRun <;> simp [h, hnr]

/-- Each wait produced by `wait_exponential 1 4 10` lies in `[4, 10]`. -/
theorem wait_exponential_4_10_bounds (j : Nat) :
    4 ≤ wait_exponential 1 4 10 j ∧ wait_exponential 1 4 10 j ≤ 10 :=
  ⟨Nat.le_max_left _ _,
   Nat.max_le.mpr ⟨by norm_num, Nat.min_le_right _ _⟩⟩

set_option maxRecDepth 8000 in
/-- A 1000-character run of a non-whitespace character is non-blank after
stripping. -/
theorem msg1000_strip_ne : pyStrip fixedMsg1000 ≠ "" := by decide

set_option maxRecDepth 8000 in
/-- A 1001-character run of a non-whitespace character is non-blank after
stripping. -/
theorem msg1001_strip_ne : pyStrip fixedMsg1001 ≠ "" := by decide

/-- Exhaustive case analysis of one endpoint run: exactly the branches of the
shared try/except body. -/
theorem handleSubmission_spec (env : HandlerEnv) (sub : Submission) :
    (∃ e, validateSubmission sub = some e ∧
      handleSubmission env sub = ⟨Except.error e, [], false, false⟩) ∨
    (validateSubmission sub = none ∧
      ((env.insertResult = Except.error StoreFault.pyMongoError ∧
        handleSubmission env sub =
          ⟨Except.error ⟨500, storeFailDetail sub⟩, [], true, false⟩) ∨
       (env.insertResult = Except.error StoreFault.otherFault ∧
        handleSubmission env sub =
          ⟨Except.error ⟨500, genericErrorDetail⟩, [], true, false⟩) ∨
       (env.insertResult = Except.ok none ∧
        handleSubmission env sub = ⟨Except.error ⟨500, storeFailDetail sub⟩,
          [⟨sub, env.now, submissionType sub, env.freshUuid⟩], true, false⟩) ∨
       (∃ oid, env.insertResult = Except.ok (some oid) ∧
         ((∃ b, send_email env.email = Except.ok b ∧
            handleSubmission env sub =
              ⟨Except.ok ⟨successMessage sub, env.freshUuid, b⟩,
               [⟨sub, env.now, submissionType sub, env.freshUuid⟩], true, true⟩) ∨
          (send_email env.email = Except.error () ∧
            handleSubmission env sub =
              ⟨Except.error ⟨500, genericErrorDetail⟩,
               [⟨sub, env.now, submissionType sub, env.freshUuid⟩], true, true⟩))))) := by
  unfold handleSubmission
  cases hval : validateSubmission sub with
  | some e => exact Or.inl ⟨e, rfl, rfl⟩
  | none =>
    refine Or.inr ⟨rfl, ?_⟩
    cases hi : env.insertResult with
    | error f =>
      cases f
      · exact Or.inl ⟨rfl, rfl⟩
      · exact Or.inr (Or.inl ⟨rfl, rfl⟩)
    | ok o =>
      cases o with
      | none => exact Or.inr (Or.inr (Or.inl ⟨rfl, rfl⟩))
      | some oid =>
        refine Or.inr (Or.inr (Or.inr ⟨oid, rfl, ?_⟩))
        cases hs : send_email env.email with
        | ok b => exact Or.inl ⟨b, rfl, rfl⟩
        | error u => cases u; exact Or.inr ⟨rfl, rfl⟩

/-- Any record that reaches the store is the fully populated one built from
the submission and the per-request environment. -/
theorem handleSubmission_inserted_eq (env : HandlerEnv) (sub : Submission)
    (r : StoredRecord) (hmem : r ∈ (handleSubmission env sub).inserted) :
    r = ⟨sub, env.now, submissionType sub, env.freshUuid⟩ := by
  rcases handleSubmission_spec env sub with ⟨e, _, hout⟩ | ⟨_, hcase⟩
  · rw [hout] at hmem; simp at hmem
  · rcases hcase with ⟨_, hout⟩ | ⟨_, hout⟩ | ⟨_, hout⟩ | ⟨oid, _, h5⟩
    · rw [hout] at hmem; simp at hmem
    · rw [hout] at hmem; simp at hmem
    · rw [hout] at hmem; simpa using hmem
    · rcases h5 with ⟨b, _, hout⟩ | ⟨_, hout⟩ <;> rw [hout] at hmem <;>
        simpa using hmem

/-! ## Claims -/

/-- Claim C2: with no email-provider credential configured (`RESEND_API_KEY`
falsy), an otherwise-valid submission of any kind returns the success
response with `email_sent = false`, the record is persisted, and the
notifier returns `False` on its first attempt without ever consulting the
provider (no waits, one attempt, outcome independent of the provider). -/
theorem no_credential_still_success (env : HandlerEnv) (sub : Submission)
    (oid : String) (hval : validateSubmission sub = none)
    (hkey : env.email.resendApiKey = none)
    (hins : env.insertResult = Except.ok (some oid)) :
    (handleSubmission env sub).response =
      Except.ok ⟨successMessage sub, env.freshUuid, false⟩ ∧
    (handleSubmission env sub).inserted =
      [⟨sub, env.now, submissionType sub, env.freshUuid⟩] ∧
    send_email_run env.email = ⟨Except.ok false, 1, []⟩ := by
  have hse : send_email_run env.email = ⟨Except.ok false, 1, []⟩ := by
    simp [send_email_run, tenacityRun, send_email_attempt, hkey]
  have hmail : send_email env.email = Except.ok false := by
    rw [send_email, hse]
  exact ⟨by simp [handleSubmission, hval, hins, hmail],
         by simp [handleSubmission, hval, hins, hmail], hse⟩

/-- Witness for C2 on closed inputs. -/
theorem no_credential_still_success_witness :
    (handleSubmission envNoCredential (Submission.contact contactHello)).response =
      Except.ok ⟨"Your message has been sent to Muhammad Ahmad. He will contact you soon!",
        "77aa", false⟩ ∧
    (handleSubmission envNoCredential (Submission.contact contactHello)).inserted ≠ [] := by
  have h := no_credential_still_success envNoCredential (Submission.contact contactHello)
    "oid-2" (by decide) rfl rfl
  exact ⟨h.1, by rw [h.2.1]; simp⟩

/-- Claim C3: for a Contact message with non-blank name and non-blank
message, a message of exactly 1000 characters passes validation and one of
1001 characters is rejected with a 400 citing the length rule. -/
theorem contact_message_length_boundary (d : ContactDetails)
    (hname : pyStrip d.name ≠ "") (hmsg : pyStrip d.message ≠ "") :
    (d.message.length = 1000 → validate_contact_details d = none) ∧
    (d.message.length = 1001 →
      validate_contact_details d =
        some ⟨400, "Message cannot exceed 1000 characters"⟩) := by
  constructor <;> intro h <;> simp [validate_contact_details, hname, hmsg, h]

/-- Witness for C3 at messages of 1000 and 1001 identical characters. -/
theorem contact_message_length_boundary_witness :
    validate_contact_details ⟨"Ada", "ada@example.com", fixedMsg1000⟩ = none ∧
    validate_contact_details ⟨"Ada", "ada@example.com", fixedMsg1001⟩ =
      some ⟨400, "Message cannot exceed 1000 characters"⟩ := by
  constructor
  · exact (contact_message_length_boundary ⟨"Ada", "ada@example.com", fixedMsg1000⟩
      (by decide) msg1000_strip_ne).1 (List.length_replicate 1000 'a')
  · exact (contact_message_length_boundary ⟨"Ada", "ada@example.com", fixedMsg1001⟩
      (by decide) msg1001_strip_ne).2 (List.length_replicate 1001 'a')

/-- Claim C4: a submission that fails validation gets back exactly the
validator's 400 error; nothing is inserted (the store is never called) and
no email send is attempted; in particular every Hiring submission with a
non-"company" client type is rejected with the client-type rule. -/
theorem validation_failure_rejected (env : HandlerEnv) (sub : Submission)
    (e : HTTPException) (h : validateSubmission sub = some e) :
    (handleSubmission env sub).response = Except.error e ∧
    (handleSubmission env sub).insertCalled = false ∧
    (handleSubmission env sub).inserted = [] ∧
    (handleSubmission env sub).emailAttempted = false ∧
    e.status_code = 400 ∧
    (∀ d : HiringDetails, d.clientType ≠ "company" →
      validateSubmission (Submission.hiring d) =
        some ⟨400, "Client type must be 'company' for hiring requests"⟩) := by
  refine ⟨by simp [handleSubmission, h], by simp [handleSubmission, h],
    by simp [handleSubmission, h], by simp [handleSubmission, h],
    validateSubmission_status sub e h, ?_⟩
  intro d hd
  simp [validateSubmission, validate_hiring_details, hd]

/-- Witness for C4 on a closed hiring submission with client type
"individual". -/
theorem validation_failure_rejected_witness :
    (handleSubmission envHealthy (Submission.hiring hiringPerson)).response =
      Except.error ⟨400, "Client type must be 'company' for hiring requests"⟩ ∧
    (handleSubmission envHealthy (Submission.hiring hiringPerson)).insertCalled = false ∧
    (handleSubmission envHealthy (Submission.hiring hiringPerson)).emailAttempted = false := by
  have h := validation_failure_rejected envHealthy (Submission.hiring hiringPerson)
    ⟨400, "Client type must be 'company' for hiring requests"⟩ (by decide)
  exact ⟨h.1, h.2.1, h.2.2.2.1⟩

/-- Claim C5: if the insert raises `PyMongoError`, or succeeds without an
assigned identifier, the endpoint responds 500 with the "Failed to store ..."
detail and no email send is attempted. -/
theorem store_failure_gives_500 (env : HandlerEnv) (sub : Submission)
    (hval : validateSubmission sub = none)
    (hins : env.insertResult = Except.error StoreFault.pyMongoError ∨
            env.insertResult = Except.ok none) :
    (handleSubmission env sub).response =
      Except.error ⟨500, storeFailDetail sub⟩ ∧
    (handleSubmission env sub).emailAttempted = false := by
  rcases hins with h | h <;>
    exact ⟨by simp [handleSubmission, hval, h], by simp [handleSubmission, hval, h]⟩

/-- Witness for C5 on a closed environment whose insert raises. -/
theorem store_failure_gives_500_witness :
    (handleSubmission envStoreDown (Submission.contact contactHello)).response =
      Except.error ⟨500, "Failed to store contact details"⟩ ∧
    (handleSubmission envStoreDown (Submission.contact contactHello)).emailAttempted =
      false :=
  store_failure_gives_500 envStoreDown (Submission.contact contactHello)
    (by decide) (Or.inl rfl)

/-- Claim C1 as stated is false: on a valid contact submission whose insert
succeeds but whose email provider faults on every attempt, the tenacity
wrapper raises after exhausting its retries and the endpoint's generic
`except Exception` handler turns that into a 500 — the response is not the
success response with `email_sent = false`. -/
theorem email_exhaustion_counterexample :
    (handleSubmission envProviderDown (Submission.contact contactHello)).response =
      Except.error ⟨500, genericErrorDetail⟩ ∧
    (handleSubmission envProviderDown (Submission.contact contactHello)).response ≠
      Except.ok ⟨successMessage (Submission.contact contactHello),
        envProviderDown.freshUuid, false⟩ := by
  decide

/-- Claim C1 amended: when the notifier's retry budget is exhausted (the
provider faults on all 3 attempts), the fault propagates out of `send_email`
and the endpoint returns the generic 500, not the success response; the
record has nevertheless already been stored. -/
theorem email_retry_exhaustion_gives_500 (env : HandlerEnv) (sub : Submission)
    (oid k : String) (hval : validateSubmission sub = none)
    (hins : env.insertResult = Except.ok (some oid))
    (hkey : env.email.resendApiKey = some k)
    (hfail : ∀ i, env.email.providerSend i = none) :
    (handleSubmission env sub).response = Except.error ⟨500, genericErrorDetail⟩ ∧
    (handleSubmission env sub).inserted =
      [⟨sub, env.now, submissionType sub, env.freshUuid⟩] ∧
    (send_email_run env.email).attemptsMade = 3 := by
  have hatt : ∀ i, send_email_attempt env.email i = Except.error () := by
    intro i
    simp [send_email_attempt, hkey, hfail i]
  have hall := tenacityRun_all_fail (fun _ => true) (wait_exponential 1 2 5)
    (send_email_attempt env.email) () hatt rfl 1 2
  have hse : send_email env.email = Except.error () := hall.1
  exact ⟨by simp [handleSubmission, hval, hins, hse],
         by simp [handleSubmission, hval, hins, hse], hall.2⟩

/-- Witness for the amended C1 on closed inputs. -/
theorem email_retry_exhaustion_gives_500_witness :
    (handleSubmission envProviderDown (Submission.contact contactHello)).inserted ≠ [] ∧
    (send_email_run envProviderDown.email).attemptsMade = 3 := by
  have h := email_retry_exhaustion_gives_500 envProviderDown
    (Submission.contact contactHello) "oid-1" "re_key" (by decide) rfl rfl
    (fun _ => rfl)
  exact ⟨by rw [h.2.1]; simp, h.2.2⟩

/-- Claim C6: the MongoDB connection is attempted at most 5 times; only
connectivity faults are retried (any other fault ends the loop on the spot);
every backoff wait lies between 4 and 10 time-units; and when all 5 attempts
fail with connectivity faults, startup fails with the 500 raised by
`startup_event`, so the process does not begin accepting requests. -/
theorem connect_retry_policy (attempt : Nat → Except ConnectFault Unit) :
    (connect_to_mongodb attempt).attemptsMade ≤ 5 ∧
    (∀ w ∈ (connect_to_mongodb attempt).waits, 4 ≤ w ∧ w ≤ 10) ∧
    (attempt 1 = Except.error ConnectFault.otherFault →
      (connect_to_mongodb attempt).attemptsMade = 1) ∧
    ((∀ j, attempt j = Except.error ConnectFault.connectionFailure) →
      (connect_to_mongodb attempt).attemptsMade = 5 ∧
      startup_event attempt = Except.error ⟨500, "Database connection failed"⟩) := by
  refine ⟨tenacityRun_attempts_le _ _ attempt 1 4,
    tenacityRun_waits_bound _ _ attempt (fun w => 4 ≤ w ∧ w ≤ 10)
      wait_exponential_4_10_bounds 1 4, ?_, ?_⟩
  · intro h
    have hone := tenacityRun_not_retryable
      (fun f => f == ConnectFault.connectionFailure) (wait_exponential 1 4 10)
      attempt ConnectFault.otherFault h rfl 4
    show (tenacityRun _ _ attempt 1 4).attemptsMade = 1
    rw [hone]
  · intro h
    have hall := tenacityRun_all_fail
      (fun f => f == ConnectFault.connectionFailure) (wait_exponential 1 4 10)
      attempt ConnectFault.connectionFailure h rfl 1 4
    refine ⟨hall.2, ?_⟩
    rw [startup_event]
    rw [show (connect_to_mongodb attempt).result =
      Except.error ConnectFault.connectionFailure from hall.1]

/-- Witness for C6: a store that is down on every attempt. -/
theorem connect_retry_policy_witness :
    (connect_to_mongodb fun _ => Except.error ConnectFault.connectionFailure).attemptsMade = 5 ∧
    startup_event (fun _ => Except.error ConnectFault.connectionFailure) =
      Except.error ⟨500, "Database connection failed"⟩ :=
  (connect_retry_policy _).2.2.2 (fun _ => rfl)

/-- Claim C7: each validator is a total function returning `none` (ok) or
exactly one violation, and it returns precisely the first violated rule of
the spec's ordered rule list (for Hiring: clientType, companyName,
positionTitle, budget, timeline, requirements, contactEmail; for Contact:
name, message blankness, message length). -/
theorem validators_first_violation_order :
    (∀ d : HiringDetails, validate_hiring_details d = firstViolation hiringRules d) ∧
    (∀ d : ContactDetails, validate_contact_details d = firstViolation contactRules d) ∧
    (∀ d : ProjectDetails, validate_project_details d = firstViolation projectRules d) ∧
    (∀ d : HiringDetails, validate_hiring_details d = none ∨
      ∃ e, validate_hiring_details d = some e) ∧
    (∀ d : ContactDetails, validate_contact_details d = none ∨
      ∃ e, validate_contact_details d = some e) ∧
    (∀ d : ProjectDetails, validate_project_details d = none ∨
      ∃ e, validate_project_details d = some e) :=
  ⟨fun _ => rfl, fun _ => rfl, fun _ => rfl,
   fun d => (validate_hiring_details d).eq_none_or_eq_some,
   fun d => (validate_contact_details d).eq_none_or_eq_some,
   fun d => (validate_project_details d).eq_none_or_eq_some⟩

/-- Claim C8: every record handed to the store carries the three
system-assigned fields, non-empty (given that the generated UUID string is
non-empty, as `str(uuid.uuid4())` always is): the fresh `request_id`, the
`created_at` clock reading taken at persistence time, and a `type`
discriminator that matches the submission's kind and is one of the three
kind tags. -/
theorem persisted_record_fields (env : HandlerEnv) (sub : Submission)
    (r : StoredRecord) (hid : env.freshUuid ≠ "")
    (hmem : r ∈ (handleSubmission env sub).inserted) :
    r.request_id = env.freshUuid ∧ r.request_id ≠ "" ∧
    r.created_at = env.now ∧ r.type = submissionType sub ∧ r.type ≠ "" ∧
    (r.type = "project_request" ∨ r.type = "hiring_request" ∨
      r.type = "contact_request") := by
  rw [handleSubmission_inserted_eq env sub r hmem]
  refine ⟨rfl, hid, rfl, rfl, ?_, ?_⟩
  · cases sub <;> simp [submissionType]
  · cases sub <;> simp [submissionType]

/-- Witness for C8 at a healthy closed run. -/
theorem persisted_record_fields_witness :
    (⟨Submission.contact contactHello, 0, "contact_request", "c01a"⟩ :
      StoredRecord).request_id ≠ "" ∧
    (⟨Submission.contact contactHello, 0, "contact_request", "c01a"⟩ :
      StoredRecord).type = "contact_request" := by
  have h := persisted_record_fields envHealthy (Submission.contact contactHello)
    ⟨Submission.contact contactHello, 0, "contact_request", "c01a"⟩
    (by decide) (by decide)
  exact ⟨h.2.1, h.2.2.2.1⟩

/-- Claim C9: on any successful request the `request_id` in the response
body is exactly the `request_id` of the one record persisted for that
request. -/
theorem response_id_matches_stored (env : HandlerEnv) (sub : Submission)
    (resp : SuccessResponse)
    (h : (handleSubmission env sub).response = Except.ok resp) :
    (handleSubmission env sub).inserted.map StoredRecord.request_id =
      [resp.request_id] := by
  rcases handleSubmission_spec env sub with ⟨e, _, hout⟩ | ⟨_, hcase⟩
  · rw [hout] at h; simp at h
  · rcases hcase with ⟨_, hout⟩ | ⟨_, hout⟩ | ⟨_, hout⟩ | ⟨oid, _, h5⟩
    · rw [hout] at h; simp at h
    · rw [hout] at h; simp at h
    · rw [hout] at h; simp at h
    · rcases h5 with ⟨b, _, hout⟩ | ⟨_, hout⟩
      · rw [hout] at h ⊢
        simp at h ⊢
        rw [← h]
      · rw [hout] at h; simp at h

/-- Witness for C9 at a healthy closed run. -/
theorem response_id_matches_stored_witness :
    (handleSubmission envHealthy (Submission.contact contactHello)).inserted.map
      StoredRecord.request_id = ["c01a"] :=
  response_id_matches_stored envHealthy (Submission.contact contactHello)
    ⟨"Your message has been sent to Muhammad Ahmad. He will contact you soon!",
      "c01a", true⟩ (by decide)

/-- Claim C10: Project Request validation applies no trimming: a Project
Request with client type "company", a non-empty contact email and a
whitespace-only company name passes validation, while Hiring validation
rejects any whitespace-only company name after stripping. -/
theorem project_company_name_not_trimmed (d : ProjectDetails) (s : String)
    (hemail : d.contactEmail ≠ "") (hct : d.clientType = some "company")
    (hcn : d.companyName = some s) (hne : s ≠ "") (_hws : pyStrip s = "") :
    validate_project_details d = none ∧
    (∀ hd : HiringDetails, hd.clientType = "company" →
      pyStrip hd.companyName = "" →
      validate_hiring_details hd = some ⟨400, "Company name is required"⟩) := by
  constructor
  · simp [validate_project_details, optTruthy, hemail, hct, hcn, hne]
  · intro hd h1 h2
    simp [validate_hiring_details, h1, h2]

/-- Witness for C10: a single-space company name. -/
theorem project_company_name_not_trimmed_witness :
    validate_project_details
      ⟨some "company", none, some " ", none, none, none, none, "ada@example.com"⟩ =
      none ∧
    validate_hiring_details
      ⟨"company", " ", "Engineer", "5k", "2 weeks", "Build an API", "hr@acme.com"⟩ =
      some ⟨400, "Company name is required"⟩ := by
  have h := project_company_name_not_trimmed
    ⟨some "company", none, some " ", none, none, none, none, "ada@example.com"⟩
    " " (by decide) rfl rfl (by decide) (by decide)
  exact ⟨h.1, h.2 ⟨"company", " ", "Engineer", "5k", "2 weeks", "Build an API",
    "hr@acme.com"⟩ rfl (by decide)⟩

end PortfolioBackend
